import Mathlib

/-!
Formal model of the foxcloud network core (src/network/tcp.ts, src/network/dns.ts,
src/network/websocket.ts).  The TypeScript functions perform network and WebSocket
I/O; here every awaited interaction with the outside world is made explicit.  The
possible outcomes of one dial attempt are enumerated by a world value, and each
model function returns the observable effects the corresponding TypeScript
function produces in that world: messages sent on the duplex WebSocket, event
listeners added and removed, sockets opened and closed, targets dialed.
`Protocol.RESPONSE_DATA` (the response preamble builder, outside the core) is an
opaque parameter `respData : Nat → Bytes` throughout, as is the DoH oracle.
-/

/-- Relayed payloads are opaque byte strings. -/
abbrev Bytes := List Nat

/-- The three WebSocket listeners a dial attempt registers (tcp.ts 45–47,
dns.ts 18–24). -/
inductive Listener
  | message
  | close
  | error
  deriving DecidableEq, Repr

/-- Session header handed to the core by the session driver
(`{version, address, port, isUDP, rawData}`, see protocols contract in the
session-driver boundary). -/
structure Header where
  version : Nat
  address : String
  port : Nat
  isUDP : Bool
  rawData : Bytes
  deriving DecidableEq, Repr

/-- Connect target as passed to `connect` — a `SocketAddress`
`{hostname, port}` (tcp.ts 102–103). -/
structure SocketAddress where
  hostname : String
  port : Nat
  deriving DecidableEq, Repr

/-- Environment outcome for one execution of `dial` (tcp.ts 23–71): which of
the successive awaited steps fails, or the first chunk read from the outbound
socket when everything through the first `ws.send` succeeds.
* `connectFail` — `connect` / the initial exchange fails before a connection
  exists;
* `writeFail` — `writer.write(rawData)` rejects (connection establishment
  failed at the first write);
* `readDone` — the first `reader.read()` resolves with `done`, i.e. the peer
  ended the stream before producing any bytes (tcp.ts 51);
* `sendFail chunk` — connect, write and the first read all succeed but
  `ws.send` throws (tcp.ts 55);
* `ok chunk` — every step succeeds and the first chunk is `chunk`. -/
inductive DialWorld
  | connectFail
  | writeFail
  | readDone
  | sendFail (chunk : Bytes)
  | ok (chunk : Bytes)
  deriving DecidableEq, Repr

/-- Whether the world lets the whole dial attempt succeed. -/
def DialWorld.isOk : DialWorld → Bool
  | .ok _ => true
  | _ => false

/-- The listener set `dial` registers, in registration order (tcp.ts 45–47). -/
def dialListeners : List Listener := [Listener.message, Listener.close, Listener.error]

/-- Observable effects of one `dial` run (tcp.ts 23–71).
`openSocketLeftBehind` records whether a fully established outbound connection
is still open when a failed attempt rethrows: the catch block (tcp.ts 59–70)
removes the three listeners but never calls `socket.close()`. -/
structure DialResult where
  success : Bool
  listenersAdded : List Listener
  listenersRemoved : List Listener
  sentToWs : List Bytes
  wroteToSocket : List Bytes
  socketOpened : Bool
  openSocketLeftBehind : Bool
  deriving DecidableEq, Repr

/-- Transcription of `dial` (tcp.ts 23–71): `connect(remote)`, write `rawData`,
register the message/close/error listeners, read the first chunk (`done` ⇒
throw), send `RESPONSE_DATA(version) ++ chunk` to the WebSocket as one message,
return the socket.  On any throw the catch removes exactly the listeners that
were registered and rethrows; it closes nothing.
Per world: in `connectFail` no connection was made; in `writeFail` connection
establishment failed at the first write (no listeners registered yet — they are
assigned only after the write, tcp.ts 35–36); in `readDone` the peer closed the
stream, so no connection survives; in `sendFail` connect, write and read all
succeeded, so the established connection stays open when `dial` rethrows. -/
def dial (respData : Nat → Bytes) (version : Nat) (rawData : Bytes) (w : DialWorld) : DialResult :=
  match w with
  | DialWorld.connectFail =>
      { success := false, listenersAdded := [], listenersRemoved := [],
        sentToWs := [], wroteToSocket := [], socketOpened := false,
        openSocketLeftBehind := false }
  | DialWorld.writeFail =>
      { success := false, listenersAdded := [], listenersRemoved := [],
        sentToWs := [], wroteToSocket := [], socketOpened := true,
        openSocketLeftBehind := false }
  | DialWorld.readDone =>
      { success := false, listenersAdded := dialListeners, listenersRemoved := dialListeners,
        sentToWs := [], wroteToSocket := [rawData], socketOpened := true,
        openSocketLeftBehind := false }
  | DialWorld.sendFail _ =>
      { success := false, listenersAdded := dialListeners, listenersRemoved := dialListeners,
        sentToWs := [], wroteToSocket := [rawData], socketOpened := true,
        openSocketLeftBehind := true }
  | DialWorld.ok chunk =>
      { success := true, listenersAdded := dialListeners, listenersRemoved := [],
        sentToWs := [respData version ++ chunk], wroteToSocket := [rawData],
        socketOpened := true, openSocketLeftBehind := false }

/-- Result of the `retry` loop (tcp.ts 6–21). -/
structure RetryRun where
  socket : Option SocketAddress
  attempts : List SocketAddress
  sent : List Bytes
  leakedOpenSockets : Nat
  deriving DecidableEq, Repr

/-- Transcription of `retry` (tcp.ts 6–21): for each configured fallback entry
in order, `dial` it; return the socket of the first success; a failed attempt
is logged (`console.error`) and the loop continues with the next entry.  Each
entry is paired with the world its dial attempt runs in. -/
def retry (respData : Nat → Bytes) (version : Nat) (rawData : Bytes) :
    List (SocketAddress × DialWorld) → RetryRun
  | [] => { socket := none, attempts := [], sent := [], leakedOpenSockets := 0 }
  | (t, w) :: rest =>
    let d := dial respData version rawData w
    if d.success then
      { socket := some t, attempts := [t], sent := d.sentToWs, leakedOpenSockets := 0 }
    else
      let r := retry respData version rawData rest
      { socket := r.socket, attempts := t :: r.attempts, sent := d.sentToWs ++ r.sent,
        leakedOpenSockets := (if d.openSocketLeftBehind then 1 else 0) + r.leakedOpenSockets }

/-- The connect target and the logged host computed by the primary-dial
section of `processTCP` (tcp.ts 80–103). -/
structure PrimaryConnectInfo where
  dialHostname : String
  dialPort : Nat
  loggedHost : String
  deriving DecidableEq, Repr

/-- Transcription of processTCP lines 80–103.  `jsNum first` models the test
`!isNaN(Number(first))` on the first dot-component of the address (the model is
parametric in the exact JS `Number` semantics); `resolveOut` models
`await resolveDomain(address)` — `Except.error` for a thrown rejection,
`Except.ok s` for a returned string (resolveDomain returns the original domain
itself when resolution fails, tcp.ts 162–163).  A successful resolution only
updates the local `address` variable used in the log line (tcp.ts 89–91, 99);
the `connect` call uses `originalAddress` (tcp.ts 101–103). -/
def primaryConnectTarget (jsNum : String → Bool) (header : Header)
    (resolveOut : Except Unit String) : PrimaryConnectInfo :=
  let originalAddress := header.address
  let address0 := originalAddress
  let address1 :=
    if !(jsNum ((address0.splitOn ".").headD "")) then
      match resolveOut with
      | Except.ok resolved => if resolved != "" && resolved != address0 then resolved else address0
      | Except.error _ => address0
    else address0
  { dialHostname := originalAddress, dialPort := header.port, loggedHost := address1 }

/-- Observable outcome of `processTCP` (tcp.ts 73–130) up to the end of its
dial phase.  `liveOutboundAtEnd` counts outbound connections still open when
the dial phase ends: connections leaked by failed attempts plus the session's
own established connection, when there is one. -/
structure TCPRun where
  attempts : List SocketAddress
  socket : Option SocketAddress
  failed : Bool
  sent : List Bytes
  liveOutboundAtEnd : Nat
  deriving DecidableEq, Repr

/-- Transcription of `processTCP` (tcp.ts 73–130): compute the primary connect
target (`{hostname: originalAddress, port: header.port}`), `dial` it; on any
failure of that attempt, `retry` over the configured fallback entries; when
that too yields no socket, throw `cannot connect to hostname …`.
`pw` is the world of the primary attempt, `proxies` pairs each fallback entry
with the world of its attempt. -/
def processTCP (respData : Nat → Bytes) (jsNum : String → Bool) (header : Header)
    (resolveOut : Except Unit String) (pw : DialWorld)
    (proxies : List (SocketAddress × DialWorld)) : TCPRun :=
  let info := primaryConnectTarget jsNum header resolveOut
  let primaryTarget : SocketAddress := { hostname := info.dialHostname, port := info.dialPort }
  let d := dial respData header.version header.rawData pw
  if d.success then
    { attempts := [primaryTarget], socket := some primaryTarget, failed := false,
      sent := d.sentToWs, liveOutboundAtEnd := 1 }
  else
    let r := retry respData header.version header.rawData proxies
    { attempts := primaryTarget :: r.attempts, socket := r.socket,
      failed := r.socket.isNone, sent := d.sentToWs ++ r.sent,
      liveOutboundAtEnd := (if d.openSocketLeftBehind then 1 else 0)
        + r.leakedOpenSockets + (if r.socket.isSome then 1 else 0) }

/-- The dial-candidate sequence as the spec describes it: candidates in
configured order, attempted one after another through the first success, all
of them when none succeeds. -/
def takeThroughFirstSuccess : List (SocketAddress × DialWorld) → List SocketAddress
  | [] => []
  | (t, w) :: rest => if w.isOk then [t] else t :: takeThroughFirstSuccess rest

/-- The full attempt sequence the spec describes for a session: the primary
candidate first, then the fallback entries in configured order, stopping at
the first success. -/
def specAttemptSequence (primary : SocketAddress × DialWorld)
    (entries : List (SocketAddress × DialWorld)) : List SocketAddress :=
  takeThroughFirstSuccess (primary :: entries)

/-- The four terminal events of an established TCP session: the outbound
readable side ends or aborts (tcp.ts 117–128), or the duplex WebSocket closes
or errors (tcp.ts 39–44). -/
inductive TerminalEvent
  | outboundEOS
  | outboundAbort
  | wsClose
  | wsError
  deriving DecidableEq, Repr

/-- State of the session after a terminal event has been fully handled. -/
structure TeardownResult where
  socketClosed : Bool
  wsClosed : Bool
  listenersStillRegistered : List Listener
  deriving DecidableEq, Repr

/-- Transcription of the terminal paths of an established TCP session.  After a
successful `dial`, the message/close/error listeners stay registered (they are
removed only in dial's catch, tcp.ts 59–68, which a successful attempt never
reaches) and `processTCP` pipes `socket.readable` into a sink whose `close` and
`abort` call `safeCloseWebSocket(ws)` (tcp.ts 117–128).
* `outboundEOS` / `outboundAbort`: the pipe's sink safe-closes the WebSocket;
  the resulting ws `close` event fires the registered close listener, which
  closes the socket (tcp.ts 39–41).
* `wsClose` / `wsError`: the registered listener calls `socket.close()`
  (tcp.ts 39–44); closing the socket ends its readable side, so the pipe's
  sink then safe-closes the WebSocket.
No path removes any listener. -/
def teardown : TerminalEvent → TeardownResult
  | TerminalEvent.outboundEOS =>
      { socketClosed := true, wsClosed := true, listenersStillRegistered := dialListeners }
  | TerminalEvent.outboundAbort =>
      { socketClosed := true, wsClosed := true, listenersStillRegistered := dialListeners }
  | TerminalEvent.wsClose =>
      { socketClosed := true, wsClosed := true, listenersStillRegistered := dialListeners }
  | TerminalEvent.wsError =>
      { socketClosed := true, wsClosed := true, listenersStillRegistered := dialListeners }

/-- The two bridges a session can be handed to. -/
inductive Bridge
  | dns
  | tcp
  deriving DecidableEq, Repr

/-- Transcription of the dispatch in `processWebSocket` (websocket.ts 138–147):
`if (header.isUDP) { if (header.port === 53) { await processDNS(...) } else
{ throw Error('UDP transport is unsupported') } }  await processTCP(...)`.
There is no `return` or `else` after `processDNS`, so when it resolves,
control falls through to `processTCP`.  The result lists the bridges invoked
for the session, in order, or the error thrown before any bridge dialed. -/
def dispatchBridges (isUDP : Bool) (port : Nat) : Except String (List Bridge) :=
  match (if isUDP then
           (if port = 53 then Except.ok [Bridge.dns]
            else Except.error "UDP transport is unsupported")
         else Except.ok ([] : List Bridge)) with
  | Except.error e => Except.error e
  | Except.ok pre => Except.ok (pre ++ [Bridge.tcp])

/-- Environment outcome for the DNS fast path (dns.ts 8–52): `connect` to the
fixed resolver fails, the initial `writer.write(header.rawData)` fails, the
first read resolves `done`, or everything succeeds with first chunk `chunk`. -/
inductive FastPathWorld
  | connectFail
  | writeFail
  | readDone
  | ok (chunk : Bytes)
  deriving DecidableEq, Repr

/-- Observable effects of the DNS fast path. -/
structure FastPathResult where
  sent : List Bytes
  listenersAdded : List Listener
  fellBack : Bool
  deriving DecidableEq, Repr

/-- Transcription of the fast path of `processDNS` (dns.ts 8–52):
`connect({hostname:'8.8.8.8', port:53})`, write the header's query bytes,
register the message/close/error listeners, read the first reply (`done` ⇒
throw), send `RESPONSE_DATA(version) ++ chunk` as the first message.  Any throw
is caught at dns.ts 50 and the function continues into the DoH fallback;
unlike tcp.ts's dial, this catch removes nothing, so listeners registered
before a `readDone` failure stay registered.  On `connectFail` and `writeFail`
the listeners were not yet registered (they are added only after the write,
dns.ts 11–24) and nothing was sent. -/
def processDNSFast (respData : Nat → Bytes) (header : Header) (w : FastPathWorld) : FastPathResult :=
  match w with
  | FastPathWorld.connectFail => { sent := [], listenersAdded := [], fellBack := true }
  | FastPathWorld.writeFail => { sent := [], listenersAdded := [], fellBack := true }
  | FastPathWorld.readDone => { sent := [], listenersAdded := dialListeners, fellBack := true }
  | FastPathWorld.ok chunk =>
      { sent := [respData header.version ++ chunk], listenersAdded := dialListeners,
        fellBack := false }

/-- Transcription of the per-message DoH handler (dns.ts 86–96): each inbound
duplex message is one independent query; its reply is sent raw
(`sendArrayBuffer(resp)`, no preamble); a failing query (`dohQuery` throws on a
non-ok HTTP status or network error) safe-closes the WebSocket and nothing
further is handled.  Returns the messages sent and whether the WebSocket was
closed by a failure.  `doh q` is the oracle for `dohQuery(q)`; its error value
carries the failure. -/
def dohLoop (doh : Bytes → Except Nat Bytes) : List Bytes → List Bytes × Bool
  | [] => ([], false)
  | q :: qs =>
    match doh q with
    | Except.ok r => let t := dohLoop doh qs; (r :: t.1, t.2)
    | Except.error _ => ([], true)

/-- Observable outcome of the DoH fallback. -/
structure FallbackRun where
  sent : List Bytes
  wsClosed : Bool
  deriving DecidableEq, Repr

/-- Transcription of the DoH fallback of `processDNS` (dns.ts 54–99): first
query the header's `rawData`; on failure safe-close the WebSocket having sent
nothing; on success send `RESPONSE_DATA(version) ++ initial` as one message
(dns.ts 76–79), then handle every later inbound message through the per-query
loop, whose replies are sent raw. -/
def processDNSFallback (respData : Nat → Bytes) (version : Nat) (rawData : Bytes)
    (doh : Bytes → Except Nat Bytes) (msgs : List Bytes) : FallbackRun :=
  match doh rawData with
  | Except.error _ => { sent := [], wsClosed := true }
  | Except.ok initial =>
    let rest := dohLoop doh msgs
    { sent := (respData version ++ initial) :: rest.1, wsClosed := rest.2 }

/-- The subsequent fallback replies as the spec describes them: the raw DoH
responses, in order, cut off at the first failing query. -/
def rawRepliesUntilFailure (doh : Bytes → Except Nat Bytes) : List Bytes → List Bytes
  | [] => []
  | q :: qs =>
    match doh q with
    | Except.ok r => r :: rawRepliesUntilFailure doh qs
    | Except.error _ => []

/-- Everything a DNS session sends to the duplex peer. -/
structure DNSRun where
  sent : List Bytes
  fellBack : Bool
  deriving DecidableEq, Repr

/-- `processDNS` (dns.ts 6–100) end to end: run the fast path in world `w`;
when it fell back (any throw inside the try), continue with the DoH fallback on
the header's bytes and the later inbound messages `msgs`; when it succeeded,
the later resolver chunks `relayChunks` are forwarded verbatim by the
`pipeTo` sink (dns.ts 36–48). -/
def processDNS (respData : Nat → Bytes) (header : Header) (w : FastPathWorld)
    (relayChunks : List Bytes) (doh : Bytes → Except Nat Bytes) (msgs : List Bytes) : DNSRun :=
  let fast := processDNSFast respData header w
  if fast.fellBack then
    { sent := fast.sent
        ++ (processDNSFallback respData header.version header.rawData doh msgs).sent,
      fellBack := true }
  else
    { sent := fast.sent ++ relayChunks, fellBack := false }

/-- First index of a character, starting at `i`, or −1: JS `indexOf`. -/
def jsIndexOfAux (c : Char) (i : Nat) : List Char → Int
  | [] => -1
  | x :: rest => if x = c then Int.ofNat i else jsIndexOfAux c (i + 1) rest

/-- JS `String.prototype.indexOf` for a single character. -/
def jsIndexOf (cs : List Char) (c : Char) : Int := jsIndexOfAux c 0 cs

/-- JS `String.prototype.lastIndexOf` for a single character. -/
def jsLastIndexOf (cs : List Char) (c : Char) : Int :=
  let r := jsIndexOf cs.reverse c
  if r < 0 then -1 else Int.ofNat (cs.length - 1 - r.toNat)

/-- Clamp a JS slice index to `[0, len]`: negative indices count from the end. -/
def jsSliceClamp (len : Nat) (i : Int) : Nat :=
  if i < 0 then len - min len i.natAbs else min i.toNat len

/-- JS `String.prototype.slice(a, b)`. -/
def jsSlice (cs : List Char) (a b : Int) : List Char :=
  let lo := jsSliceClamp cs.length a
  let hi := jsSliceClamp cs.length b
  (cs.drop lo).take (hi - lo)

/-- JS `String.prototype.slice(a)` — to the end of the string. -/
def jsSliceFrom (cs : List Char) (a : Int) : List Char :=
  jsSlice cs a (Int.ofNat cs.length)

/-- Value of a decimal digit string. -/
def digitsVal (cs : List Char) : Nat :=
  cs.foldl (fun n c => 10 * n + (c.toNat - 48)) 0

/-- JS `Number(s)` restricted to the integer strings port fields take:
the empty string is 0, an optionally minus-signed run of decimal digits is its
value, and every other string is NaN (`none`).  (JS also accepts floats, hex
and `Infinity`, which never denote ports; those strings are treated as NaN
here.) -/
def jsNumberInt (s : List Char) : Option Int :=
  match s with
  | [] => some 0
  | '-' :: rest =>
      if !rest.isEmpty && rest.all Char.isDigit then some (-(Int.ofNat (digitsVal rest)))
      else none
  | cs => if cs.all Char.isDigit then some (Int.ofNat (digitsVal cs)) else none

/-- One parsed PROXY_IP entry (websocket.ts 81). -/
structure ProxyEntry where
  host : String
  port : Int
  servername : Option String
  deriving DecidableEq, Repr

/-- Transcription of the per-entry PROXY_IP parser (websocket.ts 86–109): split
off an optional `@servername`; for a bracketed entry take the host between
`[` and `]` and the port after `]:`; otherwise split at the last `:`
(`host = v.slice(0, lastColon)`, `portStr = v.slice(lastColon + 1)`); the port
is `Number(portStr) || 443`. -/
def parseProxyEntry (raw : List Char) : ProxyEntry :=
  let atIdx := jsIndexOf raw '@'
  let servername := if atIdx != -1 then some (String.mk (jsSliceFrom raw (atIdx + 1))) else none
  let v := if atIdx != -1 then jsSlice raw 0 atIdx else raw
  let hostPort :=
    match v with
    | '[' :: _ =>
      let closeIdx := jsIndexOf v ']'
      (jsSlice v 1 closeIdx, jsSliceFrom v (closeIdx + 2))
    | _ =>
      let lastColon := jsLastIndexOf v ':'
      (jsSlice v 0 lastColon, jsSliceFrom v (lastColon + 1))
  let port : Int :=
    match jsNumberInt hostPort.2 with
    | none => 443
    | some 0 => 443
    | some n => n
  { host := String.mk hostPort.1, port := port, servername := servername }

/-- JS `split(',')` on a character list: `""` yields `[""]`, like JS. -/
def jsSplitComma : List Char → List (List Char)
  | [] => [[]]
  | c :: rest =>
    if c = ',' then [] :: jsSplitComma rest
    else
      match jsSplitComma rest with
      | [] => [[c]]
      | g :: gs => (c :: g) :: gs

/-- JS whitespace for `trim` (the characters that occur in configuration). -/
def isJsSpace (c : Char) : Bool := c = ' ' || c = '\t' || c = '\n' || c = '\r'

/-- JS `String.prototype.trim`. -/
def jsTrim (cs : List Char) : List Char :=
  ((cs.dropWhile isJsSpace).reverse.dropWhile isJsSpace).reverse

/-- Transcription of the PROXY_IP list parser (websocket.ts 82–117): split on
commas, trim, drop empties, parse each entry, then drop entries with an empty
host or a non-positive port with a logged warning (`Number.isFinite` always
holds for the integer values the model produces).  Malformed entries are
dropped, never fatal. -/
def parseProxyList (s : String) : List ProxyEntry :=
  ((((jsSplitComma s.toList).map jsTrim).filter (fun v => !v.isEmpty)).map parseProxyEntry).filter
    (fun p => p.host != "" && decide (0 < p.port))

/-- Fixed preamble builder used in concrete runs: version byte only. -/
def respData0 : Nat → Bytes := fun v => [v]

/-- Concrete stand-in for the JS numeric test in concrete runs. -/
def jsNum0 : String → Bool := fun _ => false

/-- Concrete session header used in concrete runs. -/
def hdr0 : Header :=
  { version := 0, address := "example.com", port := 443, isUDP := false, rawData := [1] }

/-- Concrete DoH oracle used in concrete runs: reply `0 :: query`. -/
def doh0 : Bytes → Except Nat Bytes := fun q => Except.ok (0 :: q)

/-! Helper lemmas shared by the claim theorems. -/

theorem dial_success_eq (respData : Nat → Bytes) (version : Nat) (rawData : Bytes)
    (w : DialWorld) : (dial respData version rawData w).success = w.isOk := by
  cases w <;> rfl

theorem retry_attempts_eq (respData : Nat → Bytes) (version : Nat) (rawData : Bytes)
    (l : List (SocketAddress × DialWorld)) :
    (retry respData version rawData l).attempts = takeThroughFirstSuccess l := by
  induction l with
  | nil => rfl
  | cons hd tl ih =>
    obtain ⟨t, w⟩ := hd
    cases hw : w.isOk <;>
      simp [retry, takeThroughFirstSuccess, dial_success_eq, hw, ih]

theorem retry_socket_none_iff (respData : Nat → Bytes) (version : Nat) (rawData : Bytes)
    (l : List (SocketAddress × DialWorld)) :
    (retry respData version rawData l).socket = none ↔ ∀ p ∈ l, p.2.isOk = false := by
  induction l with
  | nil => simp [retry]
  | cons hd tl ih =>
    obtain ⟨t, w⟩ := hd
    cases hw : w.isOk <;> simp [retry, dial_success_eq, hw, ih]

theorem takeThroughFirstSuccess_allFail (l : List (SocketAddress × DialWorld))
    (h : ∀ p ∈ l, p.2.isOk = false) : takeThroughFirstSuccess l = l.map Prod.fst := by
  induction l with
  | nil => rfl
  | cons hd tl ih =>
    obtain ⟨t, w⟩ := hd
    have hw : w.isOk = false := h (t, w) (List.mem_cons_self _ _)
    simp [takeThroughFirstSuccess, hw]
    exact ih fun p hp => h p (List.mem_cons_of_mem _ hp)

theorem dohLoop_fst_eq (doh : Bytes → Except Nat Bytes) (msgs : List Bytes) :
    (dohLoop doh msgs).1 = rawRepliesUntilFailure doh msgs := by
  induction msgs with
  | nil => rfl
  | cons q qs ih => cases hq : doh q <;> simp [dohLoop, rawRepliesUntilFailure, hq, ih]

/-! The claims. -/

/-- C1: the single-outbound-connection invariant fails on the code.  A dial
attempt that fails after its connection is fully established (connect, initial
write and first read succeed, then `ws.send` throws) leaves that socket open —
dial's catch removes the listeners but never calls `socket.close()` — so when
retry's fallback dial then succeeds, two outbound connections are live for one
session. -/
theorem c1_failed_dial_leaves_socket_open :
    (processTCP respData0 jsNum0 hdr0 (Except.error ()) (DialWorld.sendFail [5])
      [({ hostname := "1.2.3.4", port := 443 }, DialWorld.ok [9])]).liveOutboundAtEnd = 2 := by
  rfl

/-- C2: the primary dial target of processTCP is always
`{hostname: header.address, port: header.port}` — the hostname passed to
`connect` (and hence the TLS server name) is the original header address; the
resolveDomain side channel only affects the logged host, whatever its outcome. -/
theorem c2_dial_uses_original_hostname (respData : Nat → Bytes) (jsNum : String → Bool)
    (header : Header) (resolveOut : Except Unit String) (pw : DialWorld)
    (proxies : List (SocketAddress × DialWorld)) :
    (primaryConnectTarget jsNum header resolveOut).dialHostname = header.address
    ∧ (processTCP respData jsNum header resolveOut pw proxies).attempts.head?
        = some { hostname := header.address, port := header.port } := by
  refine ⟨rfl, ?_⟩
  cases pw <;> rfl

/-- C3: the dial attempts of a TCP session are exactly the primary candidate
`header.address:header.port` followed by the fallback entries in configured
order, stopping at the first success; the session fails iff the primary and
every fallback attempt fail, and in that case exactly N+1 attempts were made
for a fallback list of length N — none repeated, none skipped. -/
theorem c3_attempt_sequence (respData : Nat → Bytes) (jsNum : String → Bool)
    (header : Header) (resolveOut : Except Unit String) (pw : DialWorld)
    (proxies : List (SocketAddress × DialWorld)) :
    (processTCP respData jsNum header resolveOut pw proxies).attempts
      = specAttemptSequence ({ hostname := header.address, port := header.port }, pw) proxies
    ∧ ((processTCP respData jsNum header resolveOut pw proxies).failed = true
        ↔ pw.isOk = false ∧ ∀ p ∈ proxies, p.2.isOk = false)
    ∧ (pw.isOk = false ∧ (∀ p ∈ proxies, p.2.isOk = false) →
        (processTCP respData jsNum header resolveOut pw proxies).attempts.length
          = proxies.length + 1) := by
  have h1 : (processTCP respData jsNum header resolveOut pw proxies).attempts
      = specAttemptSequence ({ hostname := header.address, port := header.port }, pw) proxies := by
    cases hw : pw.isOk <;>
      simp [processTCP, primaryConnectTarget, dial_success_eq, hw, specAttemptSequence,
        takeThroughFirstSuccess, retry_attempts_eq]
  refine ⟨h1, ?_, ?_⟩
  · cases hw : pw.isOk <;>
      simp [processTCP, dial_success_eq, hw, Option.isNone_iff_eq_none,
        retry_socket_none_iff]
  · rintro ⟨hpw, hall⟩
    rw [h1, specAttemptSequence]
    rw [takeThroughFirstSuccess_allFail]
    · simp
    · intro p hp
      rcases List.mem_cons.mp hp with h | h
      · rw [h]; exact hpw
      · exact hall p h

/-- C3 witness: with the primary and the single fallback attempt both failing,
the session makes exactly 1 + 1 dial attempts. -/
theorem c3_attempt_sequence_witness :
    (processTCP respData0 jsNum0 hdr0 (Except.error ()) DialWorld.connectFail
      [({ hostname := "10.0.0.1", port := 443 }, DialWorld.connectFail)]).attempts.length = 2 := by
  exact (c3_attempt_sequence respData0 jsNum0 hdr0 (Except.error ()) DialWorld.connectFail
    [({ hostname := "10.0.0.1", port := 443 }, DialWorld.connectFail)]).2.2 (by decide)

/-- C4 counterexample: the claim says an outbound connection that closes before
producing any bytes is fatal — no further dial attempts, no payload sent.  In
the code the primary attempt's empty first read is caught like any dial failure
(tcp.ts 109–110): with one succeeding fallback entry the session makes a second
dial attempt and the fallback's framed first reply is sent to the duplex peer. -/
theorem c4_empty_first_read_retries_cex :
    (processTCP respData0 jsNum0 hdr0 (Except.error ()) DialWorld.readDone
      [({ hostname := "1.2.3.4", port := 443 }, DialWorld.ok [9])]).attempts.length = 2
    ∧ (processTCP respData0 jsNum0 hdr0 (Except.error ()) DialWorld.readDone
      [({ hostname := "1.2.3.4", port := 443 }, DialWorld.ok [9])]).sent = [[0, 9]] :=
  ⟨rfl, rfl⟩

/-- C4 amended: an outbound connection that closes before producing any bytes
fails that dial attempt, and the failed attempt itself sends nothing to the
duplex peer; but the failure is handled like any other dial failure — when it
hits the primary attempt the fallback list is still tried, and the session
fails only when every fallback attempt also fails. -/
theorem c4_empty_first_read_amended (respData : Nat → Bytes) (jsNum : String → Bool)
    (header : Header) (resolveOut : Except Unit String)
    (proxies : List (SocketAddress × DialWorld)) :
    (dial respData header.version header.rawData DialWorld.readDone).success = false
    ∧ (dial respData header.version header.rawData DialWorld.readDone).sentToWs = []
    ∧ ((processTCP respData jsNum header resolveOut DialWorld.readDone proxies).failed = true
        ↔ ∀ p ∈ proxies, p.2.isOk = false) := by
  refine ⟨rfl, rfl, ?_⟩
  show (retry respData header.version header.rawData proxies).socket.isNone = true ↔ _
  rw [Option.isNone_iff_eq_none]
  exact retry_socket_none_iff respData header.version header.rawData proxies

/-- C4 witness: with an empty fallback list, a session whose primary attempt
reads end-of-stream fails. -/
theorem c4_empty_first_read_amended_witness :
    (processTCP respData0 jsNum0 hdr0 (Except.error ()) DialWorld.readDone []).failed = true :=
  (c4_empty_first_read_amended respData0 jsNum0 hdr0 (Except.error ()) []).2.2.mpr (by decide)

/-- C5: the dispatch is not exclusive.  For a DNS session (`isUDP`, port 53)
processWebSocket runs the DNS bridge and then — there being no `return` or
`else` after `await processDNS` (websocket.ts 139–147) — also runs the TCP
bridge for the same session.  The other two branches behave as the claim says:
UDP on a port other than 53 throws `UDP transport is unsupported` before any
bridge dials, and a non-UDP session goes to the TCP bridge alone. -/
theorem c5_dns_session_also_runs_tcp_bridge :
    dispatchBridges true 53 = Except.ok [Bridge.dns, Bridge.tcp]
    ∧ dispatchBridges true 80 = Except.error "UDP transport is unsupported"
    ∧ dispatchBridges false 443 = Except.ok [Bridge.tcp] :=
  ⟨rfl, rfl, rfl⟩

/-- C6 counterexample: on the outbound end-of-stream terminal path the
forwarding listeners are still registered — nothing in tcp.ts deregisters them
on a terminal path of an established session. -/
theorem c6_listeners_not_deregistered_cex :
    (teardown TerminalEvent.outboundEOS).listenersStillRegistered ≠ [] := by
  decide

/-- C6 amended: on every terminal path (outbound end-of-stream, outbound abort,
duplex close, duplex error) both endpoints end up closed — the pipe's sink
safe-closes the WebSocket and the registered close/error listeners close the
socket — but the two forwarding rules are not deregistered: the three listeners
installed by the successful dial remain registered; the code relies on both
sides being closed, not on deregistration, to stop further writes. -/
theorem c6_teardown_amended (e : TerminalEvent) :
    (teardown e).socketClosed = true ∧ (teardown e).wsClosed = true
    ∧ (teardown e).listenersStillRegistered = dialListeners := by
  cases e <;> exact ⟨rfl, rfl, rfl⟩

/-- C7: in the DNS fallback path, when the initial DoH query succeeds with
reply `r0`, the first message sent to the duplex peer is
`RESPONSE_DATA(version) ++ r0` and every subsequent message is a raw DoH reply
with no preamble, in order, up to the first failing query. -/
theorem c7_fallback_first_reply_framed (respData : Nat → Bytes) (version : Nat)
    (rawData : Bytes) (doh : Bytes → Except Nat Bytes) (msgs : List Bytes) (r0 : Bytes)
    (h : doh rawData = Except.ok r0) :
    (processDNSFallback respData version rawData doh msgs).sent
      = (respData version ++ r0) :: rawRepliesUntilFailure doh msgs := by
  simp [processDNSFallback, h, dohLoop_fst_eq]

/-- C7 witness: a concrete fallback run sends the framed first reply followed
by the raw replies. -/
theorem c7_fallback_first_reply_framed_witness :
    (processDNSFallback respData0 7 [1] doh0 [[2]]).sent
      = ([7] ++ [0, 1]) :: rawRepliesUntilFailure doh0 [[2]] :=
  c7_fallback_first_reply_framed respData0 7 [1] doh0 [[2]] [0, 1] rfl

/-- C8: when the DNS fast path fails at the resolver dial or at the initial
query write, nothing was sent to the duplex peer and no listener was yet
registered by the fast path; the session transitions directly to the fallback
path, and everything the duplex peer receives is exactly what the fallback path
sends — no partial or garbled preamble precedes the fallback's first reply. -/
theorem c8_fast_path_failure_silent (respData : Nat → Bytes) (header : Header)
    (w : FastPathWorld) (relayChunks : List Bytes) (doh : Bytes → Except Nat Bytes)
    (msgs : List Bytes)
    (h : w = FastPathWorld.connectFail ∨ w = FastPathWorld.writeFail) :
    (processDNSFast respData header w).sent = []
    ∧ (processDNSFast respData header w).listenersAdded = []
    ∧ (processDNS respData header w relayChunks doh msgs).fellBack = true
    ∧ (processDNS respData header w relayChunks doh msgs).sent
        = (processDNSFallback respData header.version header.rawData doh msgs).sent := by
  rcases h with h | h <;> subst h <;> exact ⟨rfl, rfl, rfl, rfl⟩

/-- C8 witness: a concrete session whose fast-path dial fails sends exactly the
fallback path's messages. -/
theorem c8_fast_path_failure_silent_witness :
    (processDNS respData0 hdr0 FastPathWorld.connectFail [] doh0 []).sent
      = (processDNSFallback respData0 hdr0.version hdr0.rawData doh0 []).sent :=
  (c8_fast_path_failure_silent respData0 hdr0 FastPathWorld.connectFail [] doh0 []
    (Or.inl rfl)).2.2.2

/-- C9: the claimed formats `host:port`, `host:port@servername` and
`[host]:port` do parse, but an entry with no colon at all does not keep its
original host: `lastIndexOf(':')` is −1, so `v.slice(0, -1)` drops the final
character of the host while the port defaults to 443 — `"10.0.0.1"` parses to
`{host: "10.0.0.", port: 443}` and survives the malformed-entry filter. -/
theorem c9_parse_missing_port_truncates_host :
    parseProxyList "1.2.3.4:8443@sni.example"
      = [{ host := "1.2.3.4", port := 8443, servername := some "sni.example" }]
    ∧ parseProxyList "[2001:db8::1]:443"
      = [{ host := "2001:db8::1", port := 443, servername := none }]
    ∧ parseProxyList "10.0.0.1"
      = [{ host := "10.0.0.", port := 443, servername := none }] :=
  ⟨by decide, by decide, by decide⟩

/-- C10: a dial attempt that fails at any stage removes exactly the WebSocket
listeners it registered before propagating the failure — the duplex
connection's listener set is left unchanged by a failed attempt. -/
theorem c10_failed_dial_listener_set_unchanged (respData : Nat → Bytes) (version : Nat)
    (rawData : Bytes) (w : DialWorld)
    (h : (dial respData version rawData w).success = false) :
    (dial respData version rawData w).listenersRemoved
      = (dial respData version rawData w).listenersAdded := by
  cases w <;> first
    | rfl
    | exact absurd h (by simp [dial])

/-- C10 witness: a concrete failed attempt leaves the listener set unchanged. -/
theorem c10_failed_dial_listener_set_unchanged_witness :
    (dial respData0 0 [1] DialWorld.connectFail).listenersRemoved
      = (dial respData0 0 [1] DialWorld.connectFail).listenersAdded :=
  c10_failed_dial_listener_set_unchanged respData0 0 [1] DialWorld.connectFail rfl
